import Mathlib

/-
Verification of the qiniu/csi-driver connector daemon (src/connector/main.go).

The development shallowly embeds the connector's protocol codec, the
per-connection session state machine (handleCmd), the stdio relay loops
(outputReader), the process-exit task, the outbound relay loop of
handleConn, and the accept-loop deadline handling, and settles the
frozen claims against these embeddings.
-/

namespace Connector

/-- Modelled from the spec: a JSON scalar value appearing in a command
payload.  The protocol package defining the concrete payload structs is
not under src, so payload shapes follow spec section 6. -/
inductive JVal
  | str (s : String)
  | int (n : Int)
  | bool (b : Bool)
deriving DecidableEq

/-- Modelled from the spec: a flat JSON object, the payload carried by a
wire envelope (each payload in spec section 6 is a flat object). -/
abbrev JObj := List (String × JVal)

/-- Modelled from the spec: payload of the filesystem-client init command
(spec section 6 names a mount target; the exact field set is in the
protocol package which is not under src). -/
structure InitKodoFSMountCmd where
  target : String
deriving DecidableEq

/-- Modelled from the spec: payload of the object-store init command
(mount target plus object-store credentials, spec section 6). -/
structure InitKodoMountCmd where
  target : String
  accessKey : String
  secretKey : String
deriving DecidableEq

/-- The closed polymorphic command set of the wire protocol
(spec section 3; the concrete Go types live in the protocol package). -/
inductive Cmd
  | initKodoFSMount (p : InitKodoFSMountCmd)
  | initKodoMount (p : InitKodoMountCmd)
  | requestData (data : String)
  | responseData (data : String) (isError : Bool)
  | terminate (code : Int)
deriving DecidableEq

/-- Modelled from the spec: the daemon's fixed protocol version string
(protocol.Version is not under src; spec section 8 uses the value v1). -/
def protocolVersion : String := "v1"

/-- Modelled from the spec: canonical command name constants of the
protocol package (only their pairwise distinctness matters here). -/
def initKodoFSMountCmdName : String := "initKodoFSMountCmd"

/-- Modelled from the spec: canonical name of the object-store init command. -/
def initKodoMountCmdName : String := "initKodoMountCmd"

/-- Modelled from the spec: canonical name of the stdin-data command. -/
def requestDataCmdName : String := "requestDataCmd"

/-- Modelled from the spec: canonical name of the output-data command. -/
def responseDataCmdName : String := "responseDataCmd"

/-- Modelled from the spec: canonical name of the termination command. -/
def terminateCmdName : String := "terminateCmd"

/-- The wire envelope: protocol.Request with fields Version, Cmd, Payload
(main.go lines 197-201 build it; lines 237-244 parse and validate it). -/
structure Request where
  version : String
  cmd : String
  payload : JObj
deriving DecidableEq

/-- Field lookup in a flat JSON object. -/
def lookupField (o : JObj) (k : String) : Option JVal :=
  match o.find? (fun p => p.1 == k) with
  | some p => some p.2
  | none => none

/-- String-typed field read following Go json.Unmarshal semantics:
a missing field keeps the zero value, a wrongly-typed field is an error. -/
def getStr (o : JObj) (k : String) : Option String :=
  match lookupField o k with
  | none => some ""
  | some (JVal.str s) => some s
  | some _ => none

/-- Bool-typed field read following Go json.Unmarshal semantics. -/
def getBool (o : JObj) (k : String) : Option Bool :=
  match lookupField o k with
  | none => some false
  | some (JVal.bool b) => some b
  | some _ => none

/-- Int-typed field read following Go json.Unmarshal semantics. -/
def getInt (o : JObj) (k : String) : Option Int :=
  match lookupField o k with
  | none => some 0
  | some (JVal.int n) => some n
  | some _ => none

/-- Payload decoding for the filesystem init command
(main.go lines 247-248: json.Unmarshal into protocol.InitKodoFSMountCmd). -/
def parseInitKodoFS (o : JObj) : Option Cmd := do
  let t ← getStr o "target"
  pure (Cmd.initKodoFSMount ⟨t⟩)

/-- Payload decoding for the object-store init command
(main.go lines 256-257). -/
def parseInitKodoMount (o : JObj) : Option Cmd := do
  let t ← getStr o "target"
  let ak ← getStr o "accessKey"
  let sk ← getStr o "secretKey"
  pure (Cmd.initKodoMount ⟨t, ak, sk⟩)

/-- Payload decoding for the stdin-data command (main.go lines 265-266). -/
def parseRequestData (o : JObj) : Option Cmd := do
  let d ← getStr o "data"
  pure (Cmd.requestData d)

/-- Canonical wire name of each command variant. -/
def cmdName : Cmd → String
  | Cmd.initKodoFSMount _ => initKodoFSMountCmdName
  | Cmd.initKodoMount _ => initKodoMountCmdName
  | Cmd.requestData _ => requestDataCmdName
  | Cmd.responseData _ _ => responseDataCmdName
  | Cmd.terminate _ => terminateCmdName

/-- Payload marshalling: json.Marshal of each concrete command struct
(field names from spec section 6). -/
def marshalCmd : Cmd → JObj
  | Cmd.initKodoFSMount p => [("target", JVal.str p.target)]
  | Cmd.initKodoMount p =>
      [("target", JVal.str p.target), ("accessKey", JVal.str p.accessKey),
       ("secretKey", JVal.str p.secretKey)]
  | Cmd.requestData d => [("data", JVal.str d)]
  | Cmd.responseData d e => [("data", JVal.str d), ("isError", JVal.bool e)]
  | Cmd.terminate n => [("code", JVal.int n)]

/-- Encoding a command into a wire envelope: marshalToConn
(main.go lines 191-205) wraps the marshalled payload in a
protocol.Request carrying protocol.Version and the command name. -/
def encodeCmd (c : Cmd) : Request :=
  { version := protocolVersion, cmd := cmdName c, payload := marshalCmd c }

/-- Outcome of decoding one wire envelope in handleConn. -/
inductive DecodeResult
  | ok (c : Cmd)
  | versionMismatch
  | unknownCmd
  | malformedPayload
deriving DecidableEq

/-- The decode dispatch of handleConn (main.go lines 241-276): validate
the version, then dispatch on the command name; only the three inbound
command names are recognized, every other name hits the default branch. -/
def decodeRequest (req : Request) : DecodeResult :=
  if req.version ≠ protocolVersion then DecodeResult.versionMismatch
  else if req.cmd = initKodoFSMountCmdName then
    match parseInitKodoFS req.payload with
    | some c => DecodeResult.ok c
    | none => DecodeResult.malformedPayload
  else if req.cmd = initKodoMountCmdName then
    match parseInitKodoMount req.payload with
    | some c => DecodeResult.ok c
    | none => DecodeResult.malformedPayload
  else if req.cmd = requestDataCmdName then
    match parseRequestData req.payload with
    | some c => DecodeResult.ok c
    | none => DecodeResult.malformedPayload
  else DecodeResult.unknownCmd

/-- Whether a command variant is inbound (peer to daemon, spec section 3). -/
def isInbound : Cmd → Bool
  | Cmd.initKodoFSMount _ => true
  | Cmd.initKodoMount _ => true
  | Cmd.requestData _ => true
  | Cmd.responseData _ _ => false
  | Cmd.terminate _ => false

/-- What the inbound loop of handleConn does with one decoded envelope:
forward the command to the session over cmdOut, or return,
tearing the connection down (main.go lines 236-276). -/
inductive InboundAction
  | forward (c : Cmd)
  | teardown
deriving DecidableEq

/-- One iteration of handleConn's inbound loop on a parsed envelope:
any version mismatch, unknown command or malformed payload returns from
the loop (teardown); only a fully decoded command is forwarded. -/
def handleConnStep (req : Request) : InboundAction :=
  match decodeRequest req with
  | DecodeResult.ok c => InboundAction.forward c
  | _ => InboundAction.teardown

/-- State of one stdio pipe handle of the session. -/
inductive Pipe
  | absent
  | opened
  | closed
deriving DecidableEq

/-- The local state of handleCmd (main.go lines 287-294), extended with
observable effects: bytes written to the child's stdin, the set of
existing temporary config files, and the number of processes spawned. -/
structure SessState where
  isClosed : Bool
  execStarted : Bool
  stdin : Pipe
  stdout : Pipe
  stderr : Pipe
  stdinBytes : List String
  files : List String
  rcloneConfigPath : String
  afterRunRegistered : Bool
  spawned : Nat
deriving DecidableEq

/-- Initial session state: all handles nil, flag clear (main.go lines 287-294). -/
def initialSessState : SessState :=
  { isClosed := false
    execStarted := false
    stdin := Pipe.absent
    stdout := Pipe.absent
    stderr := Pipe.absent
    stdinBytes := []
    files := []
    rcloneConfigPath := ""
    afterRunRegistered := false
    spawned := 0 }

/-- Modelled from the spec: the path of the temporary rclone config file
(writeRcloneConfig is referenced at main.go line 388 but its body is not
under src; the spec says credentials are materialized as a temporary
configuration file). -/
def rcloneTempConfigPath : String := "tmp-rclone-config"

/-- Modelled from the spec: writeRcloneConfig materializes the object-store
credentials as a temporary config file and returns its path
(main.go line 388; body not under src). -/
def writeRcloneConfig (_c : InitKodoMountCmd) (s : SessState) : String × SessState :=
  (rcloneTempConfigPath, { s with files := rcloneTempConfigPath :: s.files })

/-- The execCommand closure (main.go lines 331-372): reject when a process
is already associated with the session (lines 333-336), otherwise record
the process handle, open the three stdio pipes, register the afterRun
cleanup and start the child. -/
def execCommand (s : SessState) (registerAfterRun : Bool) : Bool × SessState :=
  if s.execStarted then (false, s)
  else (true, { s with
                execStarted := true
                stdin := Pipe.opened
                stdout := Pipe.opened
                stderr := Pipe.opened
                afterRunRegistered := registerAfterRun
                spawned := s.spawned + 1 })

/-- Result of one iteration of handleCmd's command loop: keep looping with
a new state, or return from handleCmd (which fires its deferred cleanup). -/
inductive StepOut
  | next (s : SessState)
  | halt (s : SessState)
deriving DecidableEq

/-- One iteration of handleCmd's command loop (main.go lines 374-412).
For an object-store init, the config file is written before execCommand
runs (lines 388-396); RequestDataCmd with no stdin handle returns
(lines 400-403); a write failure on a closed stdin returns (lines 404-407);
outbound-only variants match no case of the type switch and are ignored. -/
def handleCmdStep (s : SessState) (c : Cmd) : StepOut :=
  match c with
  | Cmd.initKodoFSMount _ =>
      match execCommand s false with
      | (true, s2) => StepOut.next s2
      | (false, s2) => StepOut.halt s2
  | Cmd.initKodoMount p =>
      match execCommand { (writeRcloneConfig p s).2 with
                          rcloneConfigPath := (writeRcloneConfig p s).1 } true with
      | (true, s2) => StepOut.next s2
      | (false, s2) => StepOut.halt s2
  | Cmd.requestData d =>
      match s.stdin with
      | Pipe.absent => StepOut.halt s
      | Pipe.opened => StepOut.next { s with stdinBytes := s.stdinBytes ++ [d] }
      | Pipe.closed => StepOut.halt s
  | _ => StepOut.next s

/-- Closing a pipe handle in the deferred cleanup (only non-nil handles
are closed, main.go lines 302-310). -/
def closePipe : Pipe → Pipe
  | Pipe.absent => Pipe.absent
  | _ => Pipe.closed

/-- The deferred cleanup of handleCmd (main.go lines 299-311): store 1
into isClosed, then close the stdio handles. -/
def sessionTeardown (s : SessState) : SessState :=
  { s with
    isClosed := true
    stdin := closePipe s.stdin
    stdout := closePipe s.stdout
    stderr := closePipe s.stderr }

/-- One full handling of a command by handleCmd: when the loop body
returns, the deferred cleanup runs; the Bool says whether the loop
continues. -/
def runHandleCmd1 (s : SessState) (c : Cmd) : SessState × Bool :=
  match handleCmdStep s c with
  | StepOut.next s2 => (s2, true)
  | StepOut.halt s2 => (sessionTeardown s2, false)

/-- Whether a command is one of the two init variants. -/
def isInit : Cmd → Bool
  | Cmd.initKodoFSMount _ => true
  | Cmd.initKodoMount _ => true
  | _ => false

/-- Observable events of the process-exit path, in emission order. -/
inductive SessEvent
  | cleanup
  | emitTerminate (code : Int)
  | markClosed
deriving DecidableEq

/-- The exit goroutine of execCommand (main.go lines 355-370) together
with the cancel chain it triggers: after Run returns, afterRun (the
registered cleanup, removing the config file) runs first (lines 358-360),
then unless the session is already closed a single TerminateCmd carrying
the exit code is sent (lines 361-364), then the deferred cancel makes
handleCmd return and its deferred cleanup marks the session closed. -/
def exitTask (s : SessState) (code : Int) : List SessEvent × SessState :=
  let s1 := if s.afterRunRegistered
            then { s with files := s.files.erase s.rcloneConfigPath }
            else s
  let evs := if s.afterRunRegistered then [SessEvent.cleanup] else []
  if s.isClosed then (evs ++ [SessEvent.markClosed], sessionTeardown s1)
  else (evs ++ [SessEvent.emitTerminate code, SessEvent.markClosed], sessionTeardown s1)

/-- Which pipe a relay loop draws from. -/
inductive StreamSrc
  | stdoutPipe
  | stderrPipe
deriving DecidableEq

/-- The stdio contents a child process produces, per stream. -/
structure SessionPipes where
  stdoutData : List String
  stderrData : List String
deriving DecidableEq

/-- The pipe the body of outputReader actually reads: main.go line 316
reads from the captured stdout variable, ignoring the output parameter. -/
def outputReaderReadsFrom (_name : String) (_output : StreamSrc) (_isError : Bool) : StreamSrc :=
  StreamSrc.stdoutPipe

/-- The relay loop outputReader (main.go lines 313-329): repeatedly read a
chunk from the pipe selected by its body and emit
ResponseDataCmd with Data the chunk and IsError the flag it was
spawned with (line 327), until end of stream. -/
def outputReaderRun (name : String) (output : StreamSrc) (isError : Bool)
    (pipes : SessionPipes) : List Cmd :=
  (match outputReaderReadsFrom name output isError with
   | StreamSrc.stdoutPipe => pipes.stdoutData
   | StreamSrc.stderrPipe => pipes.stderrData).map
    (fun chunk => Cmd.responseData chunk isError)

/-- The stdout relay as spawned by execCommand (main.go line 348). -/
def stdoutRelay (pipes : SessionPipes) : List Cmd :=
  outputReaderRun "stdout" StreamSrc.stdoutPipe false pipes

/-- The stderr relay as spawned by execCommand (main.go line 354): the
isError argument passed there is false. -/
def stderrRelay (pipes : SessionPipes) : List Cmd :=
  outputReaderRun "stderr" StreamSrc.stderrPipe false pipes

/-- Events observable on the outbound channel in the interleaving model. -/
inductive Ev
  | respData
  | termCmd
deriving DecidableEq

/-- Atomic instructions of the session's concurrent tasks: the
load of the isClosed flag (which aborts the task when set), a channel
send, and the store of the isClosed flag. -/
inductive Instr
  | guardNotClosed
  | emit (e : Ev)
  | setClosed
deriving DecidableEq

/-- A configuration of the three racing tasks: r is one outputReader
iteration that has read a chunk (main.go lines 324-327), e is the exit
goroutine around the TerminateCmd send (lines 361-364), c is the deferred
cleanup of handleCmd that stores the flag (line 300). -/
structure Conf where
  r : List Instr
  e : List Instr
  c : List Instr
  closed : Bool
  trace : List Ev
deriving DecidableEq

/-- Execute the next atomic instruction of one task: a guard that
observes the flag set makes the task return (drops its remaining
instructions), an emit appends to the outbound trace, setClosed stores
the flag. -/
def execInstr (p : List Instr) (closed : Bool) (tr : List Ev) :
    List Instr × Bool × List Ev :=
  match p with
  | [] => (p, closed, tr)
  | Instr.guardNotClosed :: rest =>
      if closed then ([], closed, tr) else (rest, closed, tr)
  | Instr.emit ev :: rest => (rest, closed, tr ++ [ev])
  | Instr.setClosed :: rest => (rest, true, tr)

/-- One scheduler step: run the next instruction of task i
(0 = relay iteration, 1 = exit goroutine, 2 = deferred cleanup). -/
def stepTask (cf : Conf) (i : Nat) : Conf :=
  if i = 0 then
    { cf with
      r := (execInstr cf.r cf.closed cf.trace).1
      closed := (execInstr cf.r cf.closed cf.trace).2.1
      trace := (execInstr cf.r cf.closed cf.trace).2.2 }
  else if i = 1 then
    { cf with
      e := (execInstr cf.e cf.closed cf.trace).1
      closed := (execInstr cf.e cf.closed cf.trace).2.1
      trace := (execInstr cf.e cf.closed cf.trace).2.2 }
  else
    { cf with
      c := (execInstr cf.c cf.closed cf.trace).1
      closed := (execInstr cf.c cf.closed cf.trace).2.1
      trace := (execInstr cf.c cf.closed cf.trace).2.2 }

/-- Run a schedule, a list of task indices, from a configuration. -/
def runSched (cf : Conf) (sched : List Nat) : Conf :=
  sched.foldl stepTask cf

/-- The configuration right before the child's exit is processed while
one relay iteration holds a freshly read chunk: the relay checks the
flag then sends (main.go lines 324, 327), the exit goroutine checks the
flag then sends TerminateCmd (lines 361, 364), the deferred cleanup
stores the flag (line 300). -/
def initConf : Conf :=
  { r := [Instr.guardNotClosed, Instr.emit Ev.respData]
    e := [Instr.guardNotClosed, Instr.emit Ev.termCmd]
    c := [Instr.setClosed]
    closed := false
    trace := [] }

/-- Number of TerminateCmd sends still pending in a task body. -/
def termEmits : List Instr → Nat
  | [] => 0
  | Instr.emit Ev.termCmd :: rest => termEmits rest + 1
  | _ :: rest => termEmits rest

/-- Number of TerminateCmd events in an outbound trace. -/
def traceTerms : List Ev → Nat
  | [] => 0
  | Ev.termCmd :: rest => traceTerms rest + 1
  | _ :: rest => traceTerms rest

/-- TerminateCmd events already emitted plus those still pending. -/
def confTermPotential (cf : Conf) : Nat :=
  traceTerms cf.trace + termEmits cf.r + termEmits cf.e + termEmits cf.c

/-- A task body containing no channel send at all. -/
def noEmit (p : List Instr) : Bool :=
  p.all (fun ins => match ins with | Instr.emit _ => false | _ => true)

/-- A task body that cannot emit while the flag is set: it either begins
with a flag check (which will make it return) or contains no send. -/
def progSafe (p : List Instr) : Bool :=
  match p with
  | Instr.guardNotClosed :: _ => true
  | _ => noEmit p

/-- Invariant of a closed session: the flag is set and every task is safe. -/
def confQuiet (cf : Conf) : Prop :=
  cf.closed = true ∧ progSafe cf.r = true ∧ progSafe cf.e = true ∧
  progSafe cf.c = true

/-- State observed by one iteration of handleConn's outbound relay loop
(main.go lines 216-228): whether its context is cancelled, whether the
channel from the session has been closed, and the commands queued on it. -/
structure OState where
  ctxDone : Bool
  chanClosed : Bool
  pending : List Cmd
deriving DecidableEq

/-- What one iteration of the outbound loop does. -/
inductive OAction
  | exited
  | wrote (c : Cmd)
  | ignored
  | blocked
deriving DecidableEq

/-- The channel-receive arm of the outbound select (main.go lines
220-226): a queued ResponseDataCmd or TerminateCmd is marshalled and
written to the socket; anything else received, including the nil value a
closed channel yields, matches no case of the type switch and the loop
just runs again. -/
def outboundRecv (s : OState) : OAction × OState :=
  match s.pending with
  | c :: rest =>
      match c with
      | Cmd.responseData d e =>
          (OAction.wrote (Cmd.responseData d e), { s with pending := rest })
      | Cmd.terminate n =>
          (OAction.wrote (Cmd.terminate n), { s with pending := rest })
      | _ => (OAction.ignored, { s with pending := rest })
  | [] => (OAction.ignored, s)

/-- One iteration of the outbound relay loop (main.go lines 216-228): a
select over the done context and the command channel; pick resolves the
select when both arms are ready.  A closed channel is always ready. -/
def outboundStep (pick : Bool) (s : OState) : OAction × OState :=
  let recvReady := !s.pending.isEmpty || s.chanClosed
  if s.ctxDone then
    if recvReady && !pick then outboundRecv s else (OAction.exited, s)
  else if recvReady then outboundRecv s
  else (OAction.blocked, s)

/-- The state reached when the session terminates (handleCmd returns and
closes the outbound channel) while the peer is idle: context not yet
cancelled, channel closed, nothing queued. -/
def spinState : OState :=
  { ctxDone := false, chanClosed := true, pending := [] }

/-- The deadline the accept loop sets on a fresh connection: 30 seconds
past the accept time (main.go line 173). -/
def acceptDeadline (acceptTime : Nat) : Nat := acceptTime + 30

/-- SetDeadline calls made after accept, anywhere in handleConn or
handleCmd: there are none. -/
def deadlineRefreshes : List Nat := []

/-- The deadline in force for the connection's whole life: the accept
deadline overridden by any later refresh. -/
def effectiveDeadline (acceptTime : Nat) : Nat :=
  deadlineRefreshes.foldl (fun _ d => d) (acceptDeadline acceptTime)

/-- Outcome of a socket read or write attempted at a given time. -/
inductive SockResult
  | ok
  | timedOut
deriving DecidableEq

/-- A socket operation on the connection fails once the absolute deadline
has passed, regardless of activity in between. -/
def socketOp (acceptTime opTime : Nat) : SockResult :=
  if effectiveDeadline acceptTime < opTime then SockResult.timedOut
  else SockResult.ok

/-- A session state with a child process running and its pipes open,
holding one spawned process. -/
def c2State : SessState :=
  { isClosed := false
    execStarted := true
    stdin := Pipe.opened
    stdout := Pipe.opened
    stderr := Pipe.opened
    stdinBytes := []
    files := []
    rcloneConfigPath := ""
    afterRunRegistered := false
    spawned := 1 }

/-- The session state right after a successful object-store init from a
fresh session. -/
def c5Session : SessState :=
  (runHandleCmd1 initialSessState (Cmd.initKodoMount ⟨"/mnt/x", "ak", "sk"⟩)).1

/-- Counting TerminateCmd events distributes over trace concatenation. -/
theorem traceTerms_append (xs ys : List Ev) :
    traceTerms (xs ++ ys) = traceTerms xs + traceTerms ys := by
  induction xs with
  | nil => simp [traceTerms]
  | cons x xs ih => cases x <;> simp [traceTerms, ih] <;> omega

/-- One instruction never increases the number of TerminateCmd events
already emitted plus those still pending. -/
theorem execInstr_term_le (p : List Instr) (closed : Bool) (tr : List Ev) :
    traceTerms (execInstr p closed tr).2.2 + termEmits (execInstr p closed tr).1 ≤
      traceTerms tr + termEmits p := by
  match p with
  | [] => simp [execInstr]
  | Instr.guardNotClosed :: rest =>
      cases closed <;> simp [execInstr, termEmits]
  | Instr.emit ev :: rest =>
      cases ev <;> simp [execInstr, termEmits, traceTerms_append, traceTerms] <;> omega
  | Instr.setClosed :: rest => simp [execInstr, termEmits]

/-- One scheduler step never increases the TerminateCmd potential. -/
theorem stepTask_term_le (cf : Conf) (i : Nat) :
    confTermPotential (stepTask cf i) ≤ confTermPotential cf := by
  have hr := execInstr_term_le cf.r cf.closed cf.trace
  have he := execInstr_term_le cf.e cf.closed cf.trace
  have hc := execInstr_term_le cf.c cf.closed cf.trace
  by_cases h0 : i = 0
  · simp [stepTask, h0, confTermPotential]; omega
  · by_cases h1 : i = 1
    · simp [stepTask, h0, h1, confTermPotential]; omega
    · simp [stepTask, h0, h1, confTermPotential]; omega

/-- Whole schedules never increase the TerminateCmd potential. -/
theorem runSched_term_le (sched : List Nat) (cf : Conf) :
    confTermPotential (runSched cf sched) ≤ confTermPotential cf := by
  induction sched generalizing cf with
  | nil => exact Nat.le_refl _
  | cons i rest ih =>
      exact Nat.le_trans (ih (stepTask cf i)) (stepTask_term_le cf i)

/-- A send-free task body is safe. -/
theorem noEmit_progSafe (p : List Instr) (h : noEmit p = true) :
    progSafe p = true := by
  match p with
  | [] => simp [progSafe, noEmit]
  | Instr.guardNotClosed :: rest => simp [progSafe]
  | Instr.emit ev :: rest => simp [noEmit] at h
  | Instr.setClosed :: rest => simpa [progSafe] using h

/-- With the closed flag set, executing an instruction of a safe task
emits nothing, keeps the flag set and leaves the task safe. -/
theorem execInstr_quiet (p : List Instr) (tr : List Ev) (hp : progSafe p = true) :
    (execInstr p true tr).2.2 = tr ∧ (execInstr p true tr).2.1 = true ∧
      progSafe (execInstr p true tr).1 = true := by
  match p with
  | [] => exact ⟨rfl, rfl, hp⟩
  | Instr.guardNotClosed :: rest => simp [execInstr, progSafe, noEmit]
  | Instr.emit ev :: rest => simp [progSafe, noEmit] at hp
  | Instr.setClosed :: rest =>
      refine ⟨rfl, rfl, ?_⟩
      apply noEmit_progSafe
      simpa [progSafe, noEmit] using hp

/-- One scheduler step preserves the closed-session invariant and emits
nothing. -/
theorem stepTask_quiet (cf : Conf) (i : Nat) (h : confQuiet cf) :
    confQuiet (stepTask cf i) ∧ (stepTask cf i).trace = cf.trace := by
  obtain ⟨hcl, hr, he, hc⟩ := h
  by_cases h0 : i = 0
  · have hq := execInstr_quiet cf.r cf.trace hr
    simp [stepTask, h0, confQuiet, hcl, hq.1, hq.2.1, hq.2.2, he, hc]
  · by_cases h1 : i = 1
    · have hq := execInstr_quiet cf.e cf.trace he
      simp [stepTask, h0, h1, confQuiet, hcl, hq.1, hq.2.1, hq.2.2, hr, hc]
    · have hq := execInstr_quiet cf.c cf.trace hc
      simp [stepTask, h0, h1, confQuiet, hcl, hq.1, hq.2.1, hq.2.2, hr, he]

/-- Whole schedules from a closed session emit nothing. -/
theorem runSched_quiet (sched : List Nat) (cf : Conf) (h : confQuiet cf) :
    (runSched cf sched).trace = cf.trace ∧ confQuiet (runSched cf sched) := by
  induction sched generalizing cf with
  | nil => exact ⟨rfl, h⟩
  | cons i rest ih =>
      have hs := stepTask_quiet cf i h
      have hrest := ih (stepTask cf i) hs.1
      exact ⟨hrest.1.trans hs.2, hrest.2⟩

/-- C1: the claim says the stderr relay loop reads the child's standard
error and emits ResponseDataCmd with isError true.  Evaluating the code
at a child that writes chunk out on stdout and chunk err on stderr: the
relay spawned for stderr (main.go line 354) is passed isError false, and
its body reads from the captured stdout pipe (line 316), so it emits the
stdout chunk tagged isError false, never the stderr chunk tagged true. -/
theorem c1_stderr_relay_reads_stdout :
    stderrRelay ⟨["out"], ["err"]⟩ = [Cmd.responseData "out" false] ∧
    stderrRelay ⟨["out"], ["err"]⟩ ≠ [Cmd.responseData "err" true] ∧
    outputReaderReadsFrom "stderr" StreamSrc.stderrPipe false = StreamSrc.stdoutPipe ∧
    stdoutRelay ⟨["out"], ["err"]⟩ = [Cmd.responseData "out" false] := by decide

/-- C2 (counterexample): with a process running and its pipes open, a
second init command leaves the session loop, whose deferred cleanup sets
the closed flag and closes the stdin pipe — the session state is not
left unchanged as the claim states. -/
theorem c2_counterexample :
    (runHandleCmd1 c2State (Cmd.initKodoFSMount ⟨"/mnt/x"⟩)).1.isClosed = true ∧
    c2State.isClosed = false ∧
    (runHandleCmd1 c2State (Cmd.initKodoFSMount ⟨"/mnt/x"⟩)).1.stdin = Pipe.closed ∧
    c2State.stdin = Pipe.opened ∧
    (runHandleCmd1 c2State (Cmd.initKodoFSMount ⟨"/mnt/x"⟩)).1.spawned = c2State.spawned := by
  decide

/-- C2 (amended): a second init command received while a process is
running is rejected without starting a second process, without replacing
the process handle and without emitting any TerminateCmd, but the
session loop then exits and its deferred cleanup marks the session
closed and closes the pipes, tearing the connection down. -/
theorem c2_amended (s : SessState) (c : Cmd) (h1 : s.execStarted = true)
    (h2 : isInit c = true) (h3 : s.stdin = Pipe.opened) :
    (runHandleCmd1 s c).2 = false ∧
    (runHandleCmd1 s c).1.spawned = s.spawned ∧
    (runHandleCmd1 s c).1.execStarted = true ∧
    (runHandleCmd1 s c).1.isClosed = true ∧
    (runHandleCmd1 s c).1.stdin = Pipe.closed := by
  cases c with
  | initKodoFSMount p =>
      simp [runHandleCmd1, handleCmdStep, execCommand, h1, h3, sessionTeardown, closePipe]
  | initKodoMount p =>
      simp [runHandleCmd1, handleCmdStep, execCommand, writeRcloneConfig, h1, h3,
            sessionTeardown, closePipe]
  | requestData d => simp [isInit] at h2
  | responseData d e => simp [isInit] at h2
  | terminate n => simp [isInit] at h2

/-- C2 (witness): the amended claim at a running session and a concrete
duplicate init command. -/
theorem c2_amended_witness :
    (runHandleCmd1 c2State (Cmd.initKodoMount ⟨"/mnt/y", "a", "b"⟩)).2 = false ∧
    (runHandleCmd1 c2State (Cmd.initKodoMount ⟨"/mnt/y", "a", "b"⟩)).1.spawned = c2State.spawned ∧
    (runHandleCmd1 c2State (Cmd.initKodoMount ⟨"/mnt/y", "a", "b"⟩)).1.execStarted = true ∧
    (runHandleCmd1 c2State (Cmd.initKodoMount ⟨"/mnt/y", "a", "b"⟩)).1.isClosed = true ∧
    (runHandleCmd1 c2State (Cmd.initKodoMount ⟨"/mnt/y", "a", "b"⟩)).1.stdin = Pipe.closed :=
  c2_amended c2State (Cmd.initKodoMount ⟨"/mnt/y", "a", "b"⟩) rfl rfl rfl

/-- C3 (counterexample): the schedule in which the relay iteration passes
its closed-flag check, then the exit goroutine passes its check, sends
TerminateCmd and the cleanup stores the flag, and only then the relay
performs its pending send, puts a ResponseDataCmd after the TerminateCmd
on the outbound channel — TerminateCmd is not the last event. -/
theorem c3_counterexample :
    (runSched initConf [0, 1, 1, 2, 0]).trace = [Ev.termCmd, Ev.respData] ∧
    (runSched initConf [0, 1, 1, 2, 0]).trace.getLast? ≠ some Ev.termCmd := by decide

/-- C3 (amended): in every interleaving at most one TerminateCmd is
emitted, and once the session is marked closed no task emits anything
further; but a ResponseDataCmd whose closed-flag check passed before the
flag was stored may still be sent after TerminateCmd. -/
theorem c3_amended_terminate_order :
    (∀ sched : List Nat, traceTerms (runSched initConf sched).trace ≤ 1) ∧
    (∀ sched : List Nat, (runSched { initConf with closed := true } sched).trace = []) := by
  constructor
  · intro sched
    have h0 : confTermPotential initConf = 1 := by decide
    have h := runSched_term_le sched initConf
    rw [h0] at h
    unfold confTermPotential at h
    omega
  · intro sched
    have h := runSched_quiet sched { initConf with closed := true } ⟨rfl, rfl, rfl, rfl⟩
    exact h.1.trans rfl

/-- C4 (counterexample): the decode dispatch of handleConn recognizes
only the three inbound command names; decoding the encoding of a
TerminateCmd or of a ResponseDataCmd hits the default branch, so decode
does not succeed for all five variants. -/
theorem c4_counterexample :
    decodeRequest (encodeCmd (Cmd.terminate 0)) = DecodeResult.unknownCmd ∧
    decodeRequest (encodeCmd (Cmd.responseData "x" true)) = DecodeResult.unknownCmd := by
  decide

/-- C4 (amended): for the three inbound variants, decoding an encoded
command succeeds and yields the original command, so re-encoding
reproduces the original envelope exactly; the two outbound variants are
rejected by the daemon's decoder as unrecognized commands. -/
theorem c4_amended_roundtrip (c : Cmd) :
    decodeRequest (encodeCmd c) =
      (if isInbound c then DecodeResult.ok c else DecodeResult.unknownCmd) ∧
    (isInbound c = true →
      ∀ c2, decodeRequest (encodeCmd c) = DecodeResult.ok c2 → encodeCmd c2 = encodeCmd c) := by
  cases c with
  | initKodoFSMount p =>
      refine ⟨rfl, fun _ c2 h2 => ?_⟩
      have : DecodeResult.ok (Cmd.initKodoFSMount p) = DecodeResult.ok c2 := by
        exact (rfl : decodeRequest (encodeCmd (Cmd.initKodoFSMount p)) =
          DecodeResult.ok (Cmd.initKodoFSMount p)).symm.trans h2
      cases this; rfl
  | initKodoMount p =>
      refine ⟨rfl, fun _ c2 h2 => ?_⟩
      have : DecodeResult.ok (Cmd.initKodoMount p) = DecodeResult.ok c2 := by
        exact (rfl : decodeRequest (encodeCmd (Cmd.initKodoMount p)) =
          DecodeResult.ok (Cmd.initKodoMount p)).symm.trans h2
      cases this; rfl
  | requestData d =>
      refine ⟨rfl, fun _ c2 h2 => ?_⟩
      have : DecodeResult.ok (Cmd.requestData d) = DecodeResult.ok c2 := by
        exact (rfl : decodeRequest (encodeCmd (Cmd.requestData d)) =
          DecodeResult.ok (Cmd.requestData d)).symm.trans h2
      cases this; rfl
  | responseData d e => exact ⟨rfl, fun h _ _ => by simp [isInbound] at h⟩
  | terminate n => exact ⟨rfl, fun h _ _ => by simp [isInbound] at h⟩

/-- C5 (counterexample): at the session produced by an object-store init,
the exit path runs the registered cleanup before sending TerminateCmd,
not after it as the claim states. -/
theorem c5_counterexample :
    (exitTask c5Session 0).1 =
      [SessEvent.cleanup, SessEvent.emitTerminate 0, SessEvent.markClosed] ∧
    (exitTask c5Session 0).1 ≠
      [SessEvent.emitTerminate 0, SessEvent.cleanup, SessEvent.markClosed] := by decide

/-- C5 (amended): when the child terminates on a not-yet-closed session
with a registered cleanup, the session first performs the post-exit
cleanup, then emits exactly one TerminateCmd carrying the exit code,
then marks the session closed. -/
theorem c5_amended (s : SessState) (code : Int) (h1 : s.isClosed = false)
    (h2 : s.afterRunRegistered = true) :
    (exitTask s code).1 =
      [SessEvent.cleanup, SessEvent.emitTerminate code, SessEvent.markClosed] ∧
    (exitTask s code).2.isClosed = true := by
  simp [exitTask, h1, h2, sessionTeardown]

/-- C5 (witness): the amended claim at the concrete post-init session and
exit code 0. -/
theorem c5_amended_witness :
    (exitTask c5Session 0).1 =
      [SessEvent.cleanup, SessEvent.emitTerminate 0, SessEvent.markClosed] ∧
    (exitTask c5Session 0).2.isClosed = true :=
  c5_amended c5Session 0 rfl rfl

/-- C6: the claim says every teardown trigger makes both loops exit with
no goroutine spinning.  Evaluating the outbound loop at the failing
state — session terminated (channel closed, nothing pending) while the
context is not yet cancelled — one iteration receives the nil value of
the closed channel, matches no case, writes nothing and loops with the
state unchanged: the loop busy-spins instead of stopping on channel
close, and exits only once the context is cancelled. -/
theorem c6_outbound_spin :
    outboundStep true spinState = (OAction.ignored, spinState) ∧
    outboundStep false spinState = (OAction.ignored, spinState) ∧
    outboundStep true { spinState with ctxDone := true } =
      (OAction.exited, { spinState with ctxDone := true }) ∧
    outboundStep false { spinState with ctxDone := true } =
      (OAction.ignored, { spinState with ctxDone := true }) := by decide

/-- C7: any envelope whose version differs from the daemon's protocol
version makes the inbound loop tear the connection down; no command is
forwarded to the session. -/
theorem c7_version_mismatch_teardown (req : Request)
    (h : req.version ≠ protocolVersion) :
    handleConnStep req = InboundAction.teardown := by
  simp [handleConnStep, decodeRequest, h]

/-- C7 (witness): a concrete envelope with a wrong version is torn down. -/
theorem c7_witness :
    handleConnStep { version := "v0", cmd := "terminateCmd", payload := [] } =
      InboundAction.teardown :=
  c7_version_mismatch_teardown
    { version := "v0", cmd := "terminateCmd", payload := [] } (by decide)

/-- C8: a RequestDataCmd arriving while no stdin handle exists makes the
session loop return without writing any byte and without starting a
process; the deferred cleanup then closes the session, terminating the
connection cleanly. -/
theorem c8_request_before_init (s : SessState) (d : String)
    (h : s.stdin = Pipe.absent) :
    (runHandleCmd1 s (Cmd.requestData d)).2 = false ∧
    (runHandleCmd1 s (Cmd.requestData d)).1.stdinBytes = s.stdinBytes ∧
    (runHandleCmd1 s (Cmd.requestData d)).1.spawned = s.spawned ∧
    (runHandleCmd1 s (Cmd.requestData d)).1.isClosed = true := by
  simp [runHandleCmd1, handleCmdStep, h, sessionTeardown]

/-- C8 (witness): the claim at the fresh session and a concrete chunk. -/
theorem c8_witness :
    (runHandleCmd1 initialSessState (Cmd.requestData "x")).2 = false ∧
    (runHandleCmd1 initialSessState (Cmd.requestData "x")).1.stdinBytes =
      initialSessState.stdinBytes ∧
    (runHandleCmd1 initialSessState (Cmd.requestData "x")).1.spawned =
      initialSessState.spawned ∧
    (runHandleCmd1 initialSessState (Cmd.requestData "x")).1.isClosed = true :=
  c8_request_before_init initialSessState "x" rfl

/-- C9: an object-store init from a fresh session writes the temporary
config file before exec (the file exists while the process is not yet
started), starts exactly one process, and after the child exits — for
every exit code — the registered cleanup has deleted the file. -/
theorem c9_config_file_lifecycle (p : InitKodoMountCmd) (code : Int) :
    (writeRcloneConfig p initialSessState).2.files = [rcloneTempConfigPath] ∧
    (writeRcloneConfig p initialSessState).2.execStarted = false ∧
    (runHandleCmd1 initialSessState (Cmd.initKodoMount p)).2 = true ∧
    (runHandleCmd1 initialSessState (Cmd.initKodoMount p)).1.files =
      [rcloneTempConfigPath] ∧
    (runHandleCmd1 initialSessState (Cmd.initKodoMount p)).1.spawned = 1 ∧
    (exitTask (runHandleCmd1 initialSessState (Cmd.initKodoMount p)).1 code).2.files = [] :=
  ⟨rfl, rfl, rfl, rfl, rfl, rfl⟩

/-- C10: the accept loop arms a single absolute deadline of 30 seconds
from accept time, no code path refreshes it, and any socket operation
attempted after that instant fails regardless of activity. -/
theorem c10_absolute_deadline (t u : Nat) (h : t + 30 < u) :
    deadlineRefreshes = [] ∧ effectiveDeadline t = t + 30 ∧
    socketOp t u = SockResult.timedOut := by
  refine ⟨rfl, rfl, ?_⟩
  simp [socketOp, effectiveDeadline, deadlineRefreshes, acceptDeadline, h]

/-- C10 (witness): an operation 31 seconds after accept time 0 fails. -/
theorem c10_witness :
    deadlineRefreshes = [] ∧ effectiveDeadline 0 = 0 + 30 ∧
    socketOp 0 31 = SockResult.timedOut :=
  c10_absolute_deadline 0 31 (by decide)

end Connector
